import Mathlib

/-!
Shallow embedding of the devops-chatbot deployment and healing services
(`app/services/deploy.py`, `app/services/heal.py`, `app/core/security.py`).

External command execution (`asyncio.create_subprocess_exec` followed by
`communicate()`) is modelled by an oracle `Runner : List String → Except String ExecResult`:
`.ok ⟨rc, out, err⟩` is a process that started and finished with exit code `rc`,
decoded stdout `out` and decoded stderr `err`; `.error msg` is an exception while
starting or communicating with the process (e.g. `FileNotFoundError` for a
missing binary), with `msg` the Python exception text.  Python `try/except`
blocks become a `match` on an `Except`-valued body.
-/

/-- Outcome of a subprocess that did start: exit code, decoded stdout, decoded stderr. -/
structure ExecResult where
  rc : Int
  out : String
  err : String
deriving DecidableEq, Repr

/-- The external-command oracle: argv list to outcome or start/communicate exception. -/
abbrev Runner := List String → Except String ExecResult

/-!
Python string primitives, implemented by structural recursion over the
character list so that concrete instances evaluate inside the kernel.  The
inputs of this code base are ASCII command names and tool output, for which
these agree with CPython's `str.strip`, `in`, `split`, `replace` and `lower`.
-/

/-- The whitespace characters `str.strip()` removes (ASCII range). -/
def isPyWhitespace (c : Char) : Bool :=
  c == ' ' || c == '\t' || c == '\n' || c == '\r' || c == '\x0b' || c == '\x0c'

/-- Python `s.strip()`: drop leading and trailing whitespace. -/
def pyStrip (s : String) : String :=
  ⟨((s.data.dropWhile isPyWhitespace).reverse.dropWhile isPyWhitespace).reverse⟩

/-- `p` is a prefix of `s` (over character lists). -/
def listStartsWith : List Char → List Char → Bool
  | _, [] => true
  | [], _ :: _ => false
  | c :: cs, p :: ps => c == p && listStartsWith cs ps

/-- `p` occurs as a contiguous sublist of `s`. -/
def listContainsSub : List Char → List Char → Bool
  | [], p => p == []
  | c :: cs, p => listStartsWith (c :: cs) p || listContainsSub cs p

/-- Python substring test `p in s` (`str.__contains__`). -/
def strContains (s p : String) : Bool := listContainsSub s.data p.data

/-- Python `s.split(sep)` for a one-character separator: the chunks between
occurrences of `sep`, empty chunks preserved (`"".split(c) = [""]`). -/
def splitOnChar (sep : Char) : List Char → List (List Char)
  | [] => [[]]
  | c :: cs =>
      match splitOnChar sep cs with
      | [] => [[]]
      | chunk :: rest => if c == sep then [] :: chunk :: rest else (c :: chunk) :: rest

/-- Python `s.replace(pat, rep)`: replace non-overlapping occurrences left to
right; the fuel argument (always called with more fuel than characters) keeps
the recursion structural. -/
def pyReplaceAux (pat rep : List Char) : Nat → List Char → List Char
  | 0, s => s
  | _ + 1, [] => []
  | n + 1, c :: cs =>
      if listStartsWith (c :: cs) pat then
        rep ++ pyReplaceAux pat rep n ((c :: cs).drop pat.length)
      else c :: pyReplaceAux pat rep n cs

/-- Python `s.replace(pat, rep)`. -/
def pyReplace (s pat rep : String) : String :=
  ⟨pyReplaceAux pat.data rep.data (s.data.length + 1) s.data⟩

/-- Python `str.lower` on one ASCII character. -/
def pyCharLower (c : Char) : Char :=
  if 'A' ≤ c && c ≤ 'Z' then Char.ofNat (c.toNat + 32) else c

/-- Python `s.lower()` (ASCII range). -/
def pyLower (s : String) : String := ⟨s.data.map pyCharLower⟩

/-- Python `s[:n]`. -/
def pyTake (s : String) (n : Nat) : String := ⟨s.data.take n⟩

/-- Python `len(s)` (code points). -/
def pyLen (s : String) : Nat := s.data.length

/-! ## `app/core/security.py` -/

/-- `dangerous_patterns` from `sanitize_input` (security.py line 170). -/
def dangerous_patterns : List String := ["<script", "javascript:", "data:", "vbscript:"]

/-- `sanitize_input(input_string, max_length)` (security.py lines 156-176):
strip surrounding whitespace, truncate to `max_length`, then for each pattern in
`dangerous_patterns` whose lowercase form occurs in the lowercased string,
replace its (case-sensitive) occurrences by `[FILTERED]`.  The non-string input
branch (`return ""`) is outside the `String`-typed model. -/
def sanitize_input (input_string : String) (max_length : Nat) : String :=
  let sanitized := pyStrip input_string
  let sanitized := if pyLen sanitized > max_length then pyTake sanitized max_length else sanitized
  dangerous_patterns.foldl
    (fun s p => if strContains (pyLower s) (pyLower p) then pyReplace s p "[FILTERED]" else s)
    sanitized

/-! ## Probes (`deploy.py` lines 122-177) -/

/-- The argv of the `is_docker_container` probe (deploy.py line 126); the
literal braces of the Go template `--format` argument are escaped. -/
def docker_ps_cmd (name : String) : List String :=
  ["docker", "ps", "-a", "--filter", "name=^" ++ name ++ "$",
   "--format", "\x7b\x7b.Names\x7d\x7d"]

/-- The argv of the `is_docker_compose_service` probe (deploy.py line 141). -/
def compose_ps_cmd (name : String) : List String := ["docker-compose", "ps", "-q", name]

/-- The argv of the `is_system_service` probe (deploy.py line 155). -/
def systemctl_list_cmd (name : String) : List String :=
  ["systemctl", "list-units", "--type=service", name ++ ".service"]

/-- The argv of the `is_pm2_process` probe (deploy.py line 169). -/
def pm2_list_cmd : List String := ["pm2", "list", "--format"]

/-- `is_docker_container(name)` (deploy.py lines 122-135): split stripped stdout
on newlines and test membership of `name`; an exception makes the probe answer
`false`.  Note the exit code is not inspected. -/
def is_docker_container (run : Runner) (name : String) : Bool :=
  match run (docker_ps_cmd name) with
  | .error _ => false
  | .ok r =>
      let containers := splitOnChar '\n' (pyStrip r.out).data
      containers.contains name.data && !(containers == [[]])

/-- `is_docker_compose_service(name)` (deploy.py lines 137-149): zero exit code
and non-empty stripped stdout; an exception answers `false`. -/
def is_docker_compose_service (run : Runner) (name : String) : Bool :=
  match run (compose_ps_cmd name) with
  | .error _ => false
  | .ok r => r.rc == 0 && pyStrip r.out != ""

/-- `is_system_service(name)` (deploy.py lines 151-163): zero exit code and
`name` a substring of stdout; an exception answers `false`. -/
def is_system_service (run : Runner) (name : String) : Bool :=
  match run (systemctl_list_cmd name) with
  | .error _ => false
  | .ok r => r.rc == 0 && strContains r.out name

/-- `is_pm2_process(name)` (deploy.py lines 165-177): zero exit code and `name`
a substring of stdout; an exception answers `false`. -/
def is_pm2_process (run : Runner) (name : String) : Bool :=
  match run pm2_list_cmd with
  | .error _ => false
  | .ok r => r.rc == 0 && strContains r.out name

/-! ## Handlers (`deploy.py` lines 179-290) -/

/-- The three sub-commands of the container `deploy` action (deploy.py lines 191-195). -/
def deploy_commands (name : String) : List (List String) :=
  [["docker", "stop", name], ["docker", "pull", name], ["docker", "start", name]]

/-- Python's `'\n'.join(pieces)`. -/
def join_nl : List String → String
  | [] => ""
  | [a] => a
  | a :: rest => a ++ "\n" ++ join_nl rest

/-- The `for cmd in commands` loop of `handle_docker_container`'s deploy branch
(deploy.py lines 200-213): run each command, append its stdout/stderr to the
accumulators, return failure with the newline-joined accumulators at the first
non-zero exit code, success with all accumulated output after the last step. -/
def run_deploy_loop (run : Runner) :
    List (List String) → List String → List String → Except String (Bool × String × String)
  | [], accOut, accErr =>
      .ok (true, join_nl accOut, join_nl accErr)
  | cmd :: rest, accOut, accErr => do
      let r ← run cmd
      let accOut := accOut ++ [r.out]
      let accErr := accErr ++ [r.err]
      if r.rc != 0 then
        .ok (false, join_nl accOut, join_nl accErr)
      else
        run_deploy_loop run rest accOut accErr

/-- Body of `handle_docker_container` inside its `try` (deploy.py lines 181-217).
For an action other than `restart`/`deploy` the Python code reaches line 215 with
the local `result` unbound and raises, which the `except` converts. -/
def handle_docker_container_body (run : Runner) (name action : String) :
    Except String (Bool × String × String) :=
  if action == "restart" then do
    let r ← run ["docker", "restart", name]
    pure (r.rc == 0, r.out, r.err)
  else if action == "deploy" then
    run_deploy_loop run (deploy_commands name) [] []
  else
    .error "cannot access local variable result"

/-- `handle_docker_container(name, action)` (deploy.py lines 179-220): the
`except Exception` clause converts any exception into `(False, "", str(e))`. -/
def handle_docker_container (run : Runner) (name action : String) : Bool × String × String :=
  match handle_docker_container_body run name action with
  | .ok r => r
  | .error e => (false, "", e)

/-- Command selection of `handle_docker_compose_service` (deploy.py lines 225-230). -/
def compose_cmd (name action : String) : List String :=
  if action == "restart" then ["docker-compose", "restart", name]
  else if action == "deploy" then ["docker-compose", "up", "-d", "--force-recreate", name]
  else ["docker-compose", "restart", name]

/-- `handle_docker_compose_service(name, action)` (deploy.py lines 222-243). -/
def handle_docker_compose_service (run : Runner) (name action : String) :
    Bool × String × String :=
  match run (compose_cmd name action) with
  | .ok r => (r.rc == 0, r.out, r.err)
  | .error e => (false, "", e)

/-- Command selection of `handle_system_service` (deploy.py lines 248-254); all
three branches build the same command. -/
def system_cmd (name action : String) : List String :=
  if action == "restart" then ["sudo", "systemctl", "restart", name ++ ".service"]
  else if action == "deploy" then ["sudo", "systemctl", "restart", name ++ ".service"]
  else ["sudo", "systemctl", "restart", name ++ ".service"]

/-- `handle_system_service(name, action)` (deploy.py lines 245-267). -/
def handle_system_service (run : Runner) (name action : String) : Bool × String × String :=
  match run (system_cmd name action) with
  | .ok r => (r.rc == 0, r.out, r.err)
  | .error e => (false, "", e)

/-- Command selection of `handle_pm2_process` (deploy.py lines 272-277). -/
def pm2_cmd (name action : String) : List String :=
  if action == "restart" then ["pm2", "restart", name]
  else if action == "deploy" then ["pm2", "reload", name]
  else ["pm2", "restart", name]

/-- `handle_pm2_process(name, action)` (deploy.py lines 269-290). -/
def handle_pm2_process (run : Runner) (name action : String) : Bool × String × String :=
  match run (pm2_cmd name action) with
  | .ok r => (r.rc == 0, r.out, r.err)
  | .error e => (false, "", e)

/-! ## Strategy selection and orchestration (`deploy.py` lines 12-120) -/

/-- The backends of the spec's Resolver, for stating refinement of the
strategy-selection chain. -/
inductive Backend
  | containerRuntime
  | composeService
  | systemService
  | processManager
deriving DecidableEq, Repr

/-- The strategy chain of `deploy_application` (deploy.py lines 46-69): probe in
order docker container, docker compose, system service, pm2; run the matching
handler; with no match, fall back to the system-service handler.  Returns
`(success, output, error, strategy_used)`. -/
def select_strategy (run : Runner) (name dtype : String) :
    Bool × String × String × String :=
  if is_docker_container run name then
    let r := handle_docker_container run name dtype
    (r.1, r.2.1, r.2.2, "docker_container")
  else if is_docker_compose_service run name then
    let r := handle_docker_compose_service run name dtype
    (r.1, r.2.1, r.2.2, "docker_compose")
  else if is_system_service run name then
    let r := handle_system_service run name dtype
    (r.1, r.2.1, r.2.2, "system_service")
  else if is_pm2_process run name then
    let r := handle_pm2_process run name dtype
    (r.1, r.2.1, r.2.2, "pm2_process")
  else
    let r := handle_system_service run name dtype
    (r.1, r.2.1, r.2.2, "system_service_fallback")

/-- Mapping from the `strategy_used` strings of deploy.py to the spec's backend
vocabulary (the fallback is the system-service backend). -/
def backend_of : String → Option Backend
  | "docker_container" => some .containerRuntime
  | "docker_compose" => some .composeService
  | "system_service" => some .systemService
  | "pm2_process" => some .processManager
  | "system_service_fallback" => some .systemService
  | _ => none

/-- Environment of one `deploy_application` call: the command oracle, whether
`get_database()` returned a handle, and the outcomes of the two audit-log writes
(`insert_one`, `update_one`), each either `.ok` or a raised exception. -/
structure DeployEnv where
  run : Runner
  db_present : Bool
  db_insert : Except String Unit
  db_update : Except String Unit

/-- The result dictionary of `deploy_application` (deploy.py lines 94-120),
without the wall-clock fields (`execution_time`, `timestamp`).  `strategy_used`,
`output` and `error` are `Option`s because the corresponding dictionary keys are
present only on some paths. -/
structure DeployResult where
  success : Bool
  app_name : String
  strategy_used : Option String
  message : String
  output : Option String
  error : Option String
deriving DecidableEq, Repr

/-- Body of `deploy_application` inside its `try` (deploy.py lines 21-110):
log insertion when a database is present, the strategy chain, the log update,
and the result dictionary.  A database exception propagates to the boundary. -/
def deploy_body (env : DeployEnv) (app_name dtype : String) : Except String DeployResult :=
  match (if env.db_present then env.db_insert else .ok ()) with
  | .error e => .error e
  | .ok _ =>
    let sel := select_strategy env.run app_name dtype
    match (if env.db_present then env.db_update else .ok ()) with
    | .error e => .error e
    | .ok _ =>
      if sel.1 then
        .ok { success := true, app_name := app_name, strategy_used := some sel.2.2.2,
              message := "Successfully " ++ dtype ++ "ed " ++ app_name ++ " using " ++ sel.2.2.2,
              output := some (if sel.2.1 == "" then "No output" else pyTake sel.2.1 500),
              error := none }
      else
        .ok { success := false, app_name := app_name, strategy_used := some sel.2.2.2,
              message := "Failed to " ++ dtype ++ " " ++ app_name,
              output := none,
              error := some (if sel.2.2.1 == "" then "Unknown error" else pyTake sel.2.2.1 500) }

/-- `deploy_application(app_name, user_id, channel, deployment_type)`
(deploy.py lines 12-120): sanitize the name to at most 50 characters, run the
body, and convert any exception escaping the body into a failed result carrying
the exception text (lines 112-120). -/
def deploy_application (env : DeployEnv) (app_name dtype : String) : DeployResult :=
  let app_name := sanitize_input app_name 50
  match deploy_body env app_name dtype with
  | .ok r => r
  | .error e =>
      { success := false, app_name := app_name, strategy_used := none,
        message := "Deployment failed with exception: " ++ e,
        output := none, error := some e }

/-! ## `app/services/heal.py` -/

/-- A healing-task result dictionary as read by the `run_healing_tasks` loop:
the `task` name, the `success` flag and the human-readable message/detail. -/
structure TaskResult where
  task : String
  success : Bool
  message : String
deriving DecidableEq, Repr

/-- What dispatching one known task name to its implementation yields in the
environment: a returned result dictionary, or an exception escaping the call. -/
inductive TaskOutcome
  | ok (r : TaskResult)
  | exn (msg : String)
deriving DecidableEq, Repr

/-- The default task list (heal.py line 20), also the set of names the
dispatch chain of lines 30-39 recognises. -/
def known_tasks : List String :=
  ["restart_failed_services", "clean_disk_space", "check_memory_usage", "restart_hanging_processes"]

/-- One iteration of the `for task in tasks` loop of `run_healing_tasks`
(heal.py lines 28-52), with the four task implementations abstracted into the
environment `env`: a recognised name is dispatched and a raised exception is
converted locally into a failed result with message `Exception: ...`
(lines 45-52); an unrecognised name yields the failed `Unknown task` result
(line 39). -/
def run_one_task (env : String → TaskOutcome) (task : String) : TaskResult :=
  if task == "restart_failed_services" || task == "clean_disk_space" ||
     task == "check_memory_usage" || task == "restart_hanging_processes" then
    match env task with
    | .ok r => r
    | .exn e => { task := task, success := false, message := "Exception: " ++ e }
  else
    { task := task, success := false, message := "Unknown task" }

/-- The report returned by `run_healing_tasks` (heal.py lines 61-67), without
the wall-clock fields. -/
structure HealingReport where
  success : Bool
  tasks_completed : Nat
  results : List TaskResult
deriving DecidableEq, Repr

/-- The loop state update of `run_healing_tasks`: append the task's result and
clear the overall flag when `result.get("success", False)` is falsy
(heal.py lines 41-43). -/
def healing_step (env : String → TaskOutcome) (acc : List TaskResult × Bool)
    (task : String) : List TaskResult × Bool :=
  let r := run_one_task env task
  (acc.1 ++ [r], acc.2 && r.success)

/-- `run_healing_tasks(user_id, channel, tasks)` (heal.py lines 13-67): run the
loop over the requested task list starting from no results and
`overall_success = True`, then assemble the report (`tasks_completed` is
`len(results)`).  The audit write (`store_healing_log`) swallows its own
exceptions and does not affect the report. -/
def run_healing_tasks (env : String → TaskOutcome) (tasks : List String) : HealingReport :=
  let (results, overall) := tasks.foldl (healing_step env) ([], true)
  { success := overall, tasks_completed := results.length, results := results }

/-! ### `clean_disk_space` (heal.py lines 148-218) -/

/-- A `psutil.disk_usage('/')` observation. -/
structure DiskUsage where
  used : Nat
  total : Nat
deriving DecidableEq, Repr

/-- `(disk_usage.used / disk_usage.total) * 100` (heal.py line 153), over ℚ in
place of Python floats. -/
def usage_percent (d : DiskUsage) : ℚ := ((d.used : ℚ) / (d.total : ℚ)) * 100

/-- Python's `round(x, 2)` approximated over ℚ (round-half-up instead of the
float banker's rounding; no claim depends on the tie case). -/
def round2 (x : ℚ) : ℚ := ((round (x * 100) : ℤ) : ℚ) / 100

/-- The result dictionary of `clean_disk_space`; keys absent on a path are
`none` (the below-threshold dictionary has no `cleaned_mb` key, the
above-threshold dictionary no `action` key). -/
structure CleanDiskResult where
  task : String
  success : Bool
  action : Option String
  current_usage : Option ℚ
  threshold : Option ℚ
  initial_usage_percent : Option ℚ
  final_usage_percent : Option ℚ
  cleaned_mb : Option ℚ
  actions_taken : Option (List String)
deriving DecidableEq, Repr

/-- The world one `clean_disk_space` call observes and may modify: the current
disk usage, which temp directories exist, how many bytes `clean_directory`
reclaims in each (it catches its own exceptions and returns a byte count,
heal.py lines 220-245), the Docker and package-cache cleanup outcomes
(an exception there is swallowed, lines 181-197), and the usage a re-observation
after cleanup reports (line 200). -/
structure DiskEnv where
  disk : DiskUsage
  dir_exists : String → Bool
  clean_dir : String → Nat
  docker_cleaned : Except String Nat
  cache_cleaned : Except String Nat
  disk_after : DiskUsage

/-- The temp directories swept above threshold (heal.py line 168). -/
def temp_dirs : List String := ["/tmp", "/var/tmp", "/var/log"]

/-- The per-directory sweep of the above-threshold branch (heal.py lines
170-179): add the reclaimed bytes and record an action line when any were
reclaimed (the `MB` rendering of the byte count is kept as a ℚ `toString`). -/
def sweep_dirs (env : DiskEnv) : Nat × List String :=
  temp_dirs.foldl
    (fun acc d =>
      if env.dir_exists d then
        let cleaned := env.clean_dir d
        (acc.1 + cleaned,
         if cleaned > 0 then
           acc.2 ++ ["Cleaned " ++ d ++ ": " ++ toString ((cleaned : ℚ) / (1024 * 1024)) ++ "MB"]
         else acc.2)
      else acc)
    (0, [])

/-- `clean_disk_space(threshold_percent)` (heal.py lines 148-218) as a state
transformer on the world: below the threshold it returns the
`no_cleanup_needed` success dictionary and touches nothing; at or above it, it
sweeps the temp directories, tries the Docker and package-cache cleanups
(swallowing their exceptions), re-reads the disk usage and reports what was
reclaimed. -/
def clean_disk_space (env : DiskEnv) (threshold_percent : ℚ) : CleanDiskResult × DiskEnv :=
  let usage := usage_percent env.disk
  if usage < threshold_percent then
    ({ task := "clean_disk_space", success := true, action := some "no_cleanup_needed",
       current_usage := some (round2 usage), threshold := some threshold_percent,
       initial_usage_percent := none, final_usage_percent := none,
       cleaned_mb := none, actions_taken := none }, env)
  else
    let (dirBytes, actions) := sweep_dirs env
    let dockerBytes := match env.docker_cleaned with | .ok n => n | .error _ => 0
    let actions := if dockerBytes > 0 then
        actions ++ ["Cleaned Docker resources: " ++ toString ((dockerBytes : ℚ) / (1024 * 1024)) ++ "MB"]
      else actions
    let cacheBytes := match env.cache_cleaned with | .ok n => n | .error _ => 0
    let actions := if cacheBytes > 0 then
        actions ++ ["Cleaned package cache: " ++ toString ((cacheBytes : ℚ) / (1024 * 1024)) ++ "MB"]
      else actions
    let cleaned_bytes := dirBytes + dockerBytes + cacheBytes
    ({ task := "clean_disk_space", success := true, action := none,
       current_usage := none, threshold := none,
       initial_usage_percent := some (round2 usage),
       final_usage_percent := some (round2 (usage_percent env.disk_after)),
       cleaned_mb := some (round2 ((cleaned_bytes : ℚ) / (1024 * 1024))),
       actions_taken := some actions }, { env with disk := env.disk_after })

/-! ## Theorems -/

/-- C1: for every application name (and oracle describing the host), the
strategy chain of `deploy_application` selects exactly one backend, probing in
the fixed order ContainerRuntime, ComposeService, SystemService,
ProcessManager and returning the backend of the first probe answering true; if
no probe answers true it selects SystemService as fallback, so a backend is
always selected — in particular a true ContainerRuntime probe wins regardless
of the SystemService probe. -/
theorem resolver_selects_first_matching_backend (run : Runner) (name dtype : String) :
    (backend_of (select_strategy run name dtype).2.2.2).isSome = true ∧
    (is_docker_container run name = true →
       backend_of (select_strategy run name dtype).2.2.2 = some Backend.containerRuntime) ∧
    (is_docker_container run name = false → is_docker_compose_service run name = true →
       backend_of (select_strategy run name dtype).2.2.2 = some Backend.composeService) ∧
    (is_docker_container run name = false → is_docker_compose_service run name = false →
       is_system_service run name = true →
       backend_of (select_strategy run name dtype).2.2.2 = some Backend.systemService) ∧
    (is_docker_container run name = false → is_docker_compose_service run name = false →
       is_system_service run name = false → is_pm2_process run name = true →
       backend_of (select_strategy run name dtype).2.2.2 = some Backend.processManager) ∧
    (is_docker_container run name = false → is_docker_compose_service run name = false →
       is_system_service run name = false → is_pm2_process run name = false →
       backend_of (select_strategy run name dtype).2.2.2 = some Backend.systemService) := by
  cases h1 : is_docker_container run name <;>
  cases h2 : is_docker_compose_service run name <;>
  cases h3 : is_system_service run name <;>
  cases h4 : is_pm2_process run name <;>
  simp [select_strategy, backend_of, h1, h2, h3, h4]

/-- A host on which both the docker and the systemctl probes answer true for
`myapp` (and the pm2 one as well), while docker-compose exits non-zero. -/
def demoRunner : Runner := fun cmd =>
  match cmd.head? with
  | some "docker" => .ok ⟨0, "myapp", ""⟩
  | some "systemctl" => .ok ⟨0, "myapp.service loaded active running", ""⟩
  | some "docker-compose" => .ok ⟨1, "", ""⟩
  | some "pm2" => .ok ⟨0, "myapp", ""⟩
  | _ => .error "FileNotFoundError"

/-- Witness for C1 at a concrete host: the ContainerRuntime and SystemService
probes both answer true and the resolver picks ContainerRuntime. -/
theorem resolver_selects_first_matching_backend_witness :
    is_docker_container demoRunner "myapp" = true ∧
    is_system_service demoRunner "myapp" = true ∧
    backend_of (select_strategy demoRunner "myapp" "restart").2.2.2 =
      some Backend.containerRuntime :=
  ⟨by decide, by decide,
   (resolver_selects_first_matching_backend demoRunner "myapp" "restart").2.1 (by decide)⟩

/-- C3: the deployment orchestrator always returns a `DeployResult` (its total
return type): with the audit sink absent (`db_present = false`) it returns the
result of the executed strategy, and a fault raised inside the body — here the
audit-log insert or update — is caught at the boundary and converted into a
`success = false` result carrying the fault message, never propagated. -/
theorem orchestrator_total_and_fault_converting (env : DeployEnv) (app dtype : String) :
    (env.db_present = false →
       (deploy_application env app dtype).success =
         (select_strategy env.run (sanitize_input app 50) dtype).1 ∧
       (deploy_application env app dtype).strategy_used =
         some (select_strategy env.run (sanitize_input app 50) dtype).2.2.2) ∧
    (∀ e, env.db_present = true → env.db_insert = .error e →
       deploy_application env app dtype =
         { success := false, app_name := sanitize_input app 50, strategy_used := none,
           message := "Deployment failed with exception: " ++ e,
           output := none, error := some e }) ∧
    (∀ e, env.db_present = true → env.db_insert = .ok () → env.db_update = .error e →
       deploy_application env app dtype =
         { success := false, app_name := sanitize_input app 50, strategy_used := none,
           message := "Deployment failed with exception: " ++ e,
           output := none, error := some e }) := by
  refine ⟨?_, ?_, ?_⟩
  · intro h
    cases hs : (select_strategy env.run (sanitize_input app 50) dtype).1 <;>
      simp [deploy_application, deploy_body, h, hs]
  · intro e h hi
    simp [deploy_application, deploy_body, h, hi]
  · intro e h hi hu
    simp [deploy_application, deploy_body, h, hi, hu]

/-- A deployment environment whose audit-log insert raises while every external
command works: probes say docker, the restart succeeds. -/
def dbDownEnv : DeployEnv :=
  { run := demoRunner, db_present := true, db_insert := .error "db down",
    db_update := .ok () }

/-- A database-less deployment environment over the same host. -/
def noDbEnv : DeployEnv :=
  { run := demoRunner, db_present := false, db_insert := .ok (), db_update := .ok () }

/-- Witness for C3: without a database the orchestrator returns the executed
strategy's result; with an insert fault it returns the converted failed result. -/
theorem orchestrator_total_and_fault_converting_witness :
    (deploy_application noDbEnv "myapp" "restart").strategy_used = some "docker_container" ∧
    deploy_application dbDownEnv "myapp" "restart" =
      { success := false, app_name := "myapp", strategy_used := none,
        message := "Deployment failed with exception: db down",
        output := none, error := some "db down" } := by
  constructor
  · have h := (orchestrator_total_and_fault_converting noDbEnv "myapp" "restart").1 rfl
    have hs : sanitize_input "myapp" 50 = "myapp" := by decide
    rw [h.2, hs]
    decide
  · have h := (orchestrator_total_and_fault_converting dbDownEnv "myapp" "restart").2.1
      "db down" rfl rfl
    have hs : sanitize_input "myapp" 50 = "myapp" := by decide
    rw [h, hs]
    decide

/-- Invariant of the healing loop fold: results accumulate in order and the
overall flag is the conjunction of the accumulated flag with every processed
task's success flag. -/
theorem healing_fold_spec (env : String → TaskOutcome) (tasks : List String) :
    ∀ acc b, tasks.foldl (healing_step env) (acc, b) =
      (acc ++ tasks.map (run_one_task env),
       b && (tasks.map (run_one_task env)).all (fun r => r.success)) := by
  induction tasks with
  | nil => intro acc b; simp
  | cons t ts ih =>
      intro acc b
      simp [healing_step, ih, Bool.and_assoc]

/-- The healing report lists exactly the requested tasks' results, in order. -/
theorem run_healing_tasks_results (env : String → TaskOutcome) (tasks : List String) :
    (run_healing_tasks env tasks).results = tasks.map (run_one_task env) := by
  simp [run_healing_tasks, healing_fold_spec]

/-- The healing report's overall flag is the conjunction of the per-task flags. -/
theorem run_healing_tasks_success (env : String → TaskOutcome) (tasks : List String) :
    (run_healing_tasks env tasks).success =
      ((run_healing_tasks env tasks).results.all (fun r => r.success)) := by
  simp [run_healing_tasks, healing_fold_spec]

/-- C4: the healing report's overall success flag equals the conjunction of the
per-task success flags (one failed task forces it false), every requested task
contributes exactly one result in order, and an exception inside a dispatched
task is converted locally into a failed result with the fault description,
leaving the remaining tasks to run. -/
theorem healing_report_conjunction (env : String → TaskOutcome) (tasks : List String) :
    (run_healing_tasks env tasks).results = tasks.map (run_one_task env) ∧
    (run_healing_tasks env tasks).tasks_completed = tasks.length ∧
    (run_healing_tasks env tasks).success =
      ((run_healing_tasks env tasks).results.all (fun r => r.success)) ∧
    (∀ r ∈ (run_healing_tasks env tasks).results, r.success = false →
       (run_healing_tasks env tasks).success = false) ∧
    (∀ t e, (t = "restart_failed_services" ∨ t = "clean_disk_space" ∨
             t = "check_memory_usage" ∨ t = "restart_hanging_processes") →
       env t = .exn e →
       run_one_task env t = { task := t, success := false, message := "Exception: " ++ e }) := by
  refine ⟨run_healing_tasks_results env tasks, ?_, run_healing_tasks_success env tasks, ?_, ?_⟩
  · simp [run_healing_tasks, healing_fold_spec]
  · intro r hr hrf
    rw [run_healing_tasks_success env tasks]
    rcases h : (run_healing_tasks env tasks).results.all (fun r => r.success) with _ | _
    · rfl
    · exact absurd ((List.all_eq_true.mp h) r hr) (by simp [hrf])
  · intro t e ht he
    rcases ht with h | h | h | h <;> subst h <;> simp [run_one_task, he]

/-- A healing environment where `clean_disk_space` raises and every other known
task returns a successful result. -/
def demoHealEnv : String → TaskOutcome := fun t =>
  if t == "clean_disk_space" then .exn "boom"
  else .ok { task := t, success := true, message := "ok" }

/-- Witness for C4 at a concrete task list: the exception in the second task is
converted locally, all three tasks appear, and the overall flag is false. -/
theorem healing_report_conjunction_witness :
    run_one_task demoHealEnv "clean_disk_space" =
      { task := "clean_disk_space", success := false, message := "Exception: boom" } ∧
    (run_healing_tasks demoHealEnv
        ["restart_failed_services", "clean_disk_space", "check_memory_usage"]).tasks_completed
      = 3 ∧
    (run_healing_tasks demoHealEnv
        ["restart_failed_services", "clean_disk_space", "check_memory_usage"]).success = false := by
  refine ⟨(healing_report_conjunction demoHealEnv
      ["restart_failed_services", "clean_disk_space", "check_memory_usage"]).2.2.2.2
      "clean_disk_space" "boom" (Or.inr (Or.inl rfl)) (by decide), ?_, ?_⟩
  · exact (healing_report_conjunction demoHealEnv
      ["restart_failed_services", "clean_disk_space", "check_memory_usage"]).2.1
  · decide

/-- Dispatching a task name outside the four known ones yields the failed
`Unknown task` result carrying that name (heal.py line 39). -/
theorem run_one_task_unknown (env : String → TaskOutcome) (t : String)
    (hk : ¬ (t = "restart_failed_services" ∨ t = "clean_disk_space" ∨
             t = "check_memory_usage" ∨ t = "restart_hanging_processes")) :
    run_one_task env t = { task := t, success := false, message := "Unknown task" } := by
  push_neg at hk
  obtain ⟨h1, h2, h3, h4⟩ := hk
  simp [run_one_task, h1, h2, h3, h4]

/-- C10: a requested task name that is none of the four known tasks is reported
as a failed result with message `Unknown task` (not skipped, not raised), every
other requested task still contributes its result, and the report's overall
success flag is false. -/
theorem unknown_task_reported (env : String → TaskOutcome) (tasks : List String)
    (t : String)
    (hk : ¬ (t = "restart_failed_services" ∨ t = "clean_disk_space" ∨
             t = "check_memory_usage" ∨ t = "restart_hanging_processes"))
    (hm : t ∈ tasks) :
    ({ task := t, success := false, message := "Unknown task" } : TaskResult) ∈
      (run_healing_tasks env tasks).results ∧
    (run_healing_tasks env tasks).results.length = tasks.length ∧
    (run_healing_tasks env tasks).success = false := by
  have hres := run_healing_tasks_results env tasks
  have hone := run_one_task_unknown env t hk
  refine ⟨?_, ?_, ?_⟩
  · rw [hres, ← hone]
    exact List.mem_map_of_mem (run_one_task env) hm
  · rw [hres]; exact List.length_map tasks (run_one_task env)
  · rw [run_healing_tasks_success env tasks]
    rcases h : (run_healing_tasks env tasks).results.all (fun r => r.success) with _ | _
    · rfl
    · have := (List.all_eq_true.mp h)
        ({ task := t, success := false, message := "Unknown task" } : TaskResult)
        (by rw [hres, ← hone]; exact List.mem_map_of_mem (run_one_task env) hm)
      simp at this

/-- Witness for C10: requesting `["restart_failed_services", "bogus"]` reports
the unknown `bogus` task as failed, keeps both results, and clears the flag. -/
theorem unknown_task_reported_witness :
    ({ task := "bogus", success := false, message := "Unknown task" } : TaskResult) ∈
      (run_healing_tasks demoHealEnv ["restart_failed_services", "bogus"]).results ∧
    (run_healing_tasks demoHealEnv ["restart_failed_services", "bogus"]).results.length = 2 ∧
    (run_healing_tasks demoHealEnv ["restart_failed_services", "bogus"]).success = false :=
  unknown_task_reported demoHealEnv ["restart_failed_services", "bogus"] "bogus"
    (by decide) (by decide)

/-- C5: on the ContainerRuntime backend the Deploy action runs the sub-steps
stop, pull, start in that order, stops at the first sub-step with a non-zero
exit code reporting overall failure, and in every case returns the in-order
newline-joined concatenation of the outputs and errors of exactly the sub-steps
executed so far. -/
theorem container_deploy_sequence (run : Runner) (name : String) (r1 r2 r3 : ExecResult)
    (h1 : run ["docker", "stop", name] = .ok r1)
    (h2 : run ["docker", "pull", name] = .ok r2)
    (h3 : run ["docker", "start", name] = .ok r3) :
    handle_docker_container run name "deploy" =
      if r1.rc = 0 then
        if r2.rc = 0 then
          if r3.rc = 0 then
            (true, r1.out ++ "\n" ++ r2.out ++ "\n" ++ r3.out,
             r1.err ++ "\n" ++ r2.err ++ "\n" ++ r3.err)
          else
            (false, r1.out ++ "\n" ++ r2.out ++ "\n" ++ r3.out,
             r1.err ++ "\n" ++ r2.err ++ "\n" ++ r3.err)
        else (false, r1.out ++ "\n" ++ r2.out, r1.err ++ "\n" ++ r2.err)
      else (false, r1.out, r1.err) := by
  by_cases e1 : r1.rc = 0 <;> by_cases e2 : r2.rc = 0 <;> by_cases e3 : r3.rc = 0 <;>
    simp [handle_docker_container, handle_docker_container_body, run_deploy_loop,
          deploy_commands, h1, h2, h3, e1, e2, e3, join_nl, bind, Except.bind,
          String.append_assoc]

/-- A host where `docker stop` succeeds and `docker pull` fails. -/
def deployDemoRunner : Runner := fun cmd =>
  if cmd == ["docker", "stop", "web"] then .ok ⟨0, "web", ""⟩
  else if cmd == ["docker", "pull", "web"] then .ok ⟨1, "pulling", "no such image"⟩
  else if cmd == ["docker", "start", "web"] then .ok ⟨0, "web", ""⟩
  else .error "not reached"

/-- Witness for C5: the pull failure stops the sequence before start, and the
trace keeps the stop step's output. -/
theorem container_deploy_sequence_witness :
    handle_docker_container deployDemoRunner "web" "deploy" =
      (false, "web\npulling", "\nno such image") := by
  have h := container_deploy_sequence deployDemoRunner "web"
    ⟨0, "web", ""⟩ ⟨1, "pulling", "no such image"⟩ ⟨0, "web", ""⟩ rfl rfl rfl
  simpa using h

/-- C6: when the external binary cannot be started (the runner raises on the
first command of the action), the handler returns `succeeded = false` with the
start error surfaced in the error component — which is then non-empty — and no
exit code (the outcome carries none); being a total function into
`Bool × String × String`, it never propagates the exception. -/
theorem missing_binary_negative_outcome (run : Runner) (name m : String) (hm : m ≠ "") :
    (run ["docker", "restart", name] = .error m →
       handle_docker_container run name "restart" = (false, "", m) ∧
       (handle_docker_container run name "restart").2.2 ≠ "") ∧
    (run ["docker", "stop", name] = .error m →
       handle_docker_container run name "deploy" = (false, "", m) ∧
       (handle_docker_container run name "deploy").2.2 ≠ "") := by
  constructor
  · intro h
    have : handle_docker_container run name "restart" = (false, "", m) := by
      simp [handle_docker_container, handle_docker_container_body, h]
    exact ⟨this, by rw [this]; exact hm⟩
  · intro h
    have : handle_docker_container run name "deploy" = (false, "", m) := by
      simp [handle_docker_container, handle_docker_container_body, run_deploy_loop,
            deploy_commands, h, bind, Except.bind]
    exact ⟨this, by rw [this]; exact hm⟩

/-- A host with no docker binary: every invocation raises `FileNotFoundError`. -/
def missingBinaryRunner : Runner := fun _ =>
  .error "No such file or directory: docker"

/-- Witness for C6: against the missing binary both actions return the failed
outcome with the start error in the error slot, without raising. -/
theorem missing_binary_negative_outcome_witness :
    handle_docker_container missingBinaryRunner "web" "restart" =
      (false, "", "No such file or directory: docker") ∧
    handle_docker_container missingBinaryRunner "web" "deploy" =
      (false, "", "No such file or directory: docker") :=
  ⟨((missing_binary_negative_outcome missingBinaryRunner "web"
      "No such file or directory: docker" (by decide)).1 rfl).1,
   ((missing_binary_negative_outcome missingBinaryRunner "web"
      "No such file or directory: docker" (by decide)).2 rfl).1⟩

/-- A host on which every command starts and exits with code 1 while printing
`myapp` on stdout. -/
def nonzeroExitRunner : Runner := fun _ => .ok ⟨1, "myapp", ""⟩

/-- Counterexample to C8 as stated: the ContainerRuntime probe's underlying
command exits non-zero (exit code 1), yet the probe answers true, because
`is_docker_container` never inspects the exit code — it decides from stdout
alone. -/
theorem probe_nonzero_exit_counterexample :
    nonzeroExitRunner (docker_ps_cmd "myapp") = .ok ⟨1, "myapp", ""⟩ ∧
    (1 : Int) ≠ 0 ∧
    is_docker_container nonzeroExitRunner "myapp" = true :=
  ⟨rfl, by decide, by decide⟩

/-- C8 (amended): a runner exception (missing tool) during probing makes every
probe answer false, and the ComposeService, SystemService and ProcessManager
probes answer false whenever their underlying command exits non-zero; the
ContainerRuntime probe ignores the exit code and answers from stdout alone. -/
theorem probe_failure_is_no_match (run : Runner) (name : String) :
    (∀ m, run (docker_ps_cmd name) = .error m → is_docker_container run name = false) ∧
    (∀ m, run (compose_ps_cmd name) = .error m → is_docker_compose_service run name = false) ∧
    (∀ m, run (systemctl_list_cmd name) = .error m → is_system_service run name = false) ∧
    (∀ m, run pm2_list_cmd = .error m → is_pm2_process run name = false) ∧
    (∀ r, run (compose_ps_cmd name) = .ok r → r.rc ≠ 0 →
       is_docker_compose_service run name = false) ∧
    (∀ r, run (systemctl_list_cmd name) = .ok r → r.rc ≠ 0 →
       is_system_service run name = false) ∧
    (∀ r, run pm2_list_cmd = .ok r → r.rc ≠ 0 → is_pm2_process run name = false) := by
  refine ⟨?_, ?_, ?_, ?_, ?_, ?_, ?_⟩
  · intro m h; simp [is_docker_container, h]
  · intro m h; simp [is_docker_compose_service, h]
  · intro m h; simp [is_system_service, h]
  · intro m h; simp [is_pm2_process, h]
  · intro r h hr; simp [is_docker_compose_service, h, beq_iff_eq, hr]
  · intro r h hr; simp [is_system_service, h, beq_iff_eq, hr]
  · intro r h hr; simp [is_pm2_process, h, beq_iff_eq, hr]

/-- Witness for the amended C8: with the docker binary absent the
ContainerRuntime probe answers false, and with a non-zero compose exit the
ComposeService probe answers false. -/
theorem probe_failure_is_no_match_witness :
    is_docker_container missingBinaryRunner "myapp" = false ∧
    is_docker_compose_service nonzeroExitRunner "myapp" = false :=
  ⟨(probe_failure_is_no_match missingBinaryRunner "myapp").1
      "No such file or directory: docker" rfl,
   (probe_failure_is_no_match nonzeroExitRunner "myapp").2.2.2.2.1
      ⟨1, "myapp", ""⟩ rfl (by decide)⟩

/-- C9: whenever disk usage is below the threshold, `clean_disk_space` returns
success with `action = no_cleanup_needed` and no reclaimed bytes (the result
has no `cleaned_mb` and no `actions_taken`), leaves the world untouched, and a
second run from the resulting world returns the very same result — the task is
idempotent below threshold. -/
theorem clean_disk_space_idempotent_below_threshold (env : DiskEnv) (threshold : ℚ)
    (h : usage_percent env.disk < threshold) :
    (clean_disk_space env threshold).1.success = true ∧
    (clean_disk_space env threshold).1.action = some "no_cleanup_needed" ∧
    (clean_disk_space env threshold).1.cleaned_mb = none ∧
    (clean_disk_space env threshold).1.actions_taken = none ∧
    (clean_disk_space env threshold).2 = env ∧
    clean_disk_space (clean_disk_space env threshold).2 threshold =
      clean_disk_space env threshold := by
  simp [clean_disk_space, h]

/-- A world at 50% disk usage with nothing to clean. -/
def demoDiskEnv : DiskEnv :=
  { disk := ⟨50, 100⟩, dir_exists := fun _ => false, clean_dir := fun _ => 0,
    docker_cleaned := .ok 0, cache_cleaned := .ok 0, disk_after := ⟨50, 100⟩ }

/-- Witness for C9 at 50% usage against the default 85% threshold. -/
theorem clean_disk_space_idempotent_below_threshold_witness :
    usage_percent demoDiskEnv.disk < 85 ∧
    (clean_disk_space demoDiskEnv 85).1.action = some "no_cleanup_needed" ∧
    (clean_disk_space demoDiskEnv 85).1.cleaned_mb = none ∧
    clean_disk_space (clean_disk_space demoDiskEnv 85).2 85 =
      clean_disk_space demoDiskEnv 85 := by
  have h : usage_percent demoDiskEnv.disk < 85 := by
    norm_num [usage_percent, demoDiskEnv]
  have hmain := clean_disk_space_idempotent_below_threshold demoDiskEnv 85 h
  exact ⟨h, hmain.2.1, hmain.2.2.1, hmain.2.2.2.2.2⟩

/-- C2 fails on the code: `sanitize_input` returns this shell-metacharacter-laden
application name unchanged — it removes none of `;`, `|`, `$`, `&` — so the name
reaches the backend commands with its metacharacters intact (the code's own
comments claim it prevents command injection). -/
theorem sanitize_input_keeps_shell_metacharacters :
    sanitize_input "myapp; rm -rf /data | cat $HOME" 50 =
      "myapp; rm -rf /data | cat $HOME" ∧
    strContains (sanitize_input "myapp; rm -rf /data | cat $HOME" 50) ";" = true ∧
    strContains (sanitize_input "myapp; rm -rf /data | cat $HOME" 50) "|" = true ∧
    strContains (sanitize_input "myapp; rm -rf /data | cat $HOME" 50) "$" = true :=
  ⟨by decide, by decide, by decide, by decide⟩
